import Mathlib

/-!
Verification of the deterministic core of the multi-agent operational
triage pipeline: task-identifier extraction, the log analysis engine,
the code analysis engine, the metrics lookup, the incident matcher and
the ticket/summary synthesizer.

Python semantics are embedded shallowly: strings are Lean strings,
dictionaries holding a fixed set of keys become structures, external
stores (file system, sqlite, the incident ledger file, the Python AST
parser) are passed in as explicit inputs, and every function is a pure
Lean function translated clause by clause from the Python source.
-/

namespace OpsAI

/-! ### Python string primitives -/

/-- needle is a prefix of the haystack, char by char. -/
def prefixMatch : List Char → List Char → Bool
  | [], _ => true
  | _ :: _, [] => false
  | a :: as, b :: bs => a == b && prefixMatch as bs

/-- Python substring containment `needle in hay` on char lists
(an empty needle is contained in everything). -/
def containsSeq (needle : List Char) : List Char → Bool
  | [] => needle.isEmpty
  | c :: cs => prefixMatch needle (c :: cs) || containsSeq needle cs

/-- Python `needle in hay` on strings. -/
def strContains (hay needle : String) : Bool :=
  containsSeq needle.toList hay.toList

/-- Python `str.lower()` (the data in this system is ASCII). -/
def pyLower (s : String) : String :=
  String.mk (s.toList.map Char.toLower)

/-- Python `a.lower() in b.lower()`: case-insensitive containment. -/
def containsCI (hay needle : String) : Bool :=
  strContains (pyLower hay) (pyLower needle)

/-- The characters Python `str.strip()` removes. -/
def isPySpace (c : Char) : Bool :=
  c == ' ' || c == '\t' || c == '\n' || c == '\r' || c == Char.ofNat 11 || c == Char.ofNat 12

/-- Python `str.strip()`. -/
def pyStrip (s : String) : String :=
  String.mk (((s.toList.dropWhile isPySpace).reverse.dropWhile isPySpace).reverse)

/-- Split a char list at every separator char (keeping empty pieces),
like Python `str.split(sep)` for a one-char separator. -/
def splitOnPred (p : Char → Bool) : List Char → List (List Char)
  | [] => [[]]
  | c :: cs =>
    match splitOnPred p cs with
    | [] => [[]]
    | h :: t => if p c then [] :: h :: t else (c :: h) :: t

/-- Python `str.split()` with no argument: split on whitespace runs,
dropping empty pieces. -/
def pySplitWs (s : String) : List String :=
  ((splitOnPred isPySpace s.toList).filter (fun l => !l.isEmpty)).map String.mk

/-- Python `content.split(chr(10))` : split into physical lines. -/
def splitLines (s : String) : List String :=
  (splitOnPred (· == '\n') s.toList).map String.mk

/-- Python slicing `s[:n]`. -/
def pyTake (n : Nat) (s : String) : String :=
  String.mk (s.toList.take n)

/-- Python `a.startswith(b)`. -/
def pyStartsWith (s pre : String) : Bool :=
  prefixMatch pre.toList s.toList

/-- Lexicographic less-or-equal on char lists by code point, the order
Python uses to compare strings. -/
def lexLe : List Char → List Char → Bool
  | [], _ => true
  | _ :: _, [] => false
  | a :: as, b :: bs => if a = b then lexLe as bs else decide (a < b)

/-! ### Timestamp extraction (LogAnalysisTool._extract_timestamp)

The three regular expressions are fixed-length sequences of character
classes, so each is modelled as a list of classes matched position by
position; `re.search` takes the leftmost match. -/

/-- Character classes appearing in the three timestamp patterns. -/
inductive CClass where
  | digit
  | wordc
  | lit (c : Char)
deriving DecidableEq, Repr

/-- Does one character match one class (regex `\d`, `\w`, literal)? -/
def cmatch : CClass → Char → Bool
  | .digit, c => c.isDigit
  | .wordc, c => c.isAlphanum || c == '_'
  | .lit x, c => c == x

/-- The fixed-length pattern matches at the head of the char list. -/
def matchPat : List CClass → List Char → Bool
  | [], _ => true
  | _ :: _, [] => false
  | p :: ps, c :: cs => cmatch p c && matchPat ps cs

/-- Leftmost match of a fixed-length pattern, returning the matched
chars, like `re.search(...).group(0)`. -/
def searchPat (p : List CClass) : List Char → Option (List Char)
  | [] => if matchPat p [] then some [] else none
  | c :: cs => if matchPat p (c :: cs) then some ((c :: cs).take p.length) else searchPat p cs

/-- Pattern `YYYY-MM-DD HH:MM:SS`. -/
def tsPattern1 : List CClass :=
  [.digit, .digit, .digit, .digit, .lit '-', .digit, .digit, .lit '-', .digit, .digit,
   .lit ' ', .digit, .digit, .lit ':', .digit, .digit, .lit ':', .digit, .digit]

/-- Pattern `MM/DD/YYYY HH:MM:SS`. -/
def tsPattern2 : List CClass :=
  [.digit, .digit, .lit '/', .digit, .digit, .lit '/', .digit, .digit, .digit, .digit,
   .lit ' ', .digit, .digit, .lit ':', .digit, .digit, .lit ':', .digit, .digit]

/-- Pattern `Mon DD HH:MM:SS`. -/
def tsPattern3 : List CClass :=
  [.wordc, .wordc, .wordc, .lit ' ', .digit, .digit,
   .lit ' ', .digit, .digit, .lit ':', .digit, .digit, .lit ':', .digit, .digit]

/-- LogAnalysisTool._extract_timestamp: the three patterns are tried in
order and the first one with a match anywhere in the line wins. -/
def extract_timestamp (line : String) : Option String :=
  match searchPat tsPattern1 line.toList with
  | some m => some (String.mk m)
  | none =>
    match searchPat tsPattern2 line.toList with
    | some m => some (String.mk m)
    | none =>
      match searchPat tsPattern3 line.toList with
      | some m => some (String.mk m)
      | none => none

/-! ### Log line classification (src/tools/log_tools.py) -/

/-- LogAnalysisTool._is_error_line keyword list. -/
def errorKeywords : List String :=
  ["error", "exception", "failed", "failure", "timeout",
   "null pointer", "connection refused", "out of memory",
   "stack trace", "fatal", "critical", "alert"]

/-- LogAnalysisTool._is_error_line. -/
def is_error_line (line : String) : Bool :=
  errorKeywords.any (fun k => strContains (pyLower line) k)

/-- LogAnalysisTool._classify_error. -/
def classify_error (line : String) : String :=
  let l := pyLower line
  if strContains l "null pointer" || strContains l "nullpointerexception" then "NullPointerException"
  else if strContains l "timeout" then "TimeoutError"
  else if strContains l "connection" && (strContains l "refused" || strContains l "failed") then "ConnectionError"
  else if strContains l "memory" then "MemoryError"
  else if strContains l "security" || strContains l "unauthorized" then "SecurityError"
  else if strContains l "database" || strContains l "sql" then "DatabaseError"
  else "GeneralError"

/-- LogAnalysisTool._determine_severity. -/
def determine_severity (line : String) : String :=
  let l := pyLower line
  if strContains l "fatal" || strContains l "critical" || strContains l "emergency" then "CRITICAL"
  else if strContains l "error" || strContains l "exception" || strContains l "failed" then "HIGH"
  else if strContains l "warning" || strContains l "warn" then "MEDIUM"
  else "LOW"

/-- One entry dictionary built by LogAnalysisTool._parse_log_file.
Keys absent from a given dictionary are `none`. -/
structure TEntry where
  file : String
  line_number : Nat
  content : String
  timestamp : Option String
  error_type : Option String
  severity : Option String
  match_type : Option String
deriving DecidableEq, Repr

/-- The three lists `_parse_log_file` accumulates. -/
structure ParseBuckets where
  task_related : List TEntry
  errors : List TEntry
  timeline : List TEntry
deriving DecidableEq, Repr

/-- Processing of one numbered raw line inside `_parse_log_file`. -/
def parseLogLine (file task_id query : String) (acc : ParseBuckets) (p : Nat × String) : ParseBuckets :=
  let line := pyStrip p.2
  if line = "" then acc
  else
    let ts := extract_timestamp line
    let e1 : TEntry :=
      { file := file, line_number := p.1, content := line, timestamp := ts,
        error_type := none, severity := none, match_type := none }
    let acc1 :=
      if containsCI line task_id then
        { acc with task_related := acc.task_related ++ [e1], timeline := acc.timeline ++ [e1] }
      else acc
    let acc2 :=
      if is_error_line line then
        let e2 : TEntry :=
          { file := file, line_number := p.1, content := line, timestamp := ts,
            error_type := some (classify_error line), severity := some (determine_severity line),
            match_type := none }
        let accE := { acc1 with errors := acc1.errors ++ [e2] }
        if containsCI line task_id then { accE with timeline := accE.timeline ++ [e2] } else accE
      else acc1
    if query ≠ "" && containsCI line query then
      let e3 : TEntry :=
        { file := file, line_number := p.1, content := line, timestamp := ts,
          error_type := none, severity := none, match_type := some "query_match" }
      { acc2 with timeline := acc2.timeline ++ [e3] }
    else acc2

/-- LogAnalysisTool._parse_log_file over the (stripped, 1-numbered,
non-empty) lines of one file. -/
def parse_log_file (file task_id query : String) (lines : List String) : ParseBuckets :=
  (List.enumFrom 1 lines).foldl (parseLogLine file task_id query) ⟨[], [], []⟩

/-- The per-file buckets are extended in input order (the `extend`
calls of `_run`). -/
def extendBuckets (a b : ParseBuckets) : ParseBuckets :=
  ⟨a.task_related ++ b.task_related, a.errors ++ b.errors, a.timeline ++ b.timeline⟩

/-- All buckets accumulated over the configured log files. -/
def rawBuckets (files : List (String × List String)) (task_id query : String) : ParseBuckets :=
  files.foldl (fun acc f => extendBuckets acc (parse_log_file f.1 task_id query f.2)) ⟨[], [], []⟩

/-- Sort key of `timeline.sort(...)`: the timestamp value. A missing
timestamp has no key; the list order compares the underlying chars. -/
def tsKey (e : TEntry) : List Char :=
  (e.timestamp.getD "").toList

/-- The comparison Python uses while sorting the timeline. -/
def tsle (a b : TEntry) : Prop :=
  lexLe (tsKey a) (tsKey b) = true

instance tsleDec : DecidableRel tsle :=
  fun a b => instDecidableEqBool (lexLe (tsKey a) (tsKey b)) true

/-- Structured result of LogAnalysisTool._run. -/
structure LogRunResult where
  task_related : List TEntry
  errors : List TEntry
  timeline : List TEntry
deriving DecidableEq, Repr

/-- LogAnalysisTool._run. Comparing a missing timestamp with any other
sort key raises TypeError in Python, which the outer handler turns into
an error string; with at most one element no comparison happens. -/
def log_run (files : List (String × List String)) (task_id query : String) :
    Except String LogRunResult :=
  if files.isEmpty then Except.error "No log files found in the specified directory"
  else
    let b := rawBuckets files task_id query
    if 2 ≤ b.timeline.length && b.timeline.any (fun e => e.timestamp.isNone) then
      Except.error "Error analyzing logs: unorderable timestamp values"
    else
      Except.ok { task_related := b.task_related, errors := b.errors,
                  timeline := List.insertionSort tsle b.timeline }

/-- LogAnalysisTool._analyze_severity accumulates a Python dict keyed
by severity; modelled as an association list in insertion order. -/
def bumpCount (k : String) : List (String × Nat) → List (String × Nat)
  | [] => [(k, 1)]
  | (k', n) :: rest => if k = k' then (k', n + 1) :: rest else (k', n) :: bumpCount k rest

/-- LogAnalysisTool._analyze_severity. -/
def analyze_severity (entries : List TEntry) : List (String × Nat) :=
  entries.foldl (fun acc e => bumpCount (e.severity.getD "UNKNOWN") acc) []

/-- Total of a severity histogram. -/
def histTotal (l : List (String × Nat)) : Nat :=
  (l.map (fun p => p.2)).sum

/-! ### Ticket synthesis (JiraTicketTool._run, multi_agent_ops_ai.py) -/

/-- The structured fields of the ticket text JiraTicketTool._run
renders. The ticket id embeds the wall-clock date, passed in here;
priority, assignee and status are written as fixed literals. -/
structure JiraTicket where
  ticket_id : String
  task : String
  priority : String
  assignee : String
  status : String
  summary : String
  details : String
deriving DecidableEq, Repr

/-- Python `task_id.replace(old, new)` for the ticket id suffix,
modelled for the one call site `task_id.replace(chars TID-, empty)`:
every occurrence of the pattern is dropped. -/
def pyReplaceTID : List Char → List Char
  | [] => []
  | 'T' :: 'I' :: 'D' :: '-' :: rest => pyReplaceTID rest
  | c :: rest => c :: pyReplaceTID rest

/-- JiraTicketTool._run. -/
def jira_create_ticket (today task_id summary details : String) : JiraTicket :=
  { ticket_id := "OPS-" ++ today ++ "-" ++ String.mk (pyReplaceTID task_id.toList),
    task := task_id,
    priority := "HIGH",
    assignee := "DevOps Team",
    status := "OPEN",
    summary := pyTake 200 summary,
    details := pyTake 1000 details }

/-- Rank of a severity label, CRITICAL > HIGH > MEDIUM > LOW. -/
def sevRank (s : String) : Nat :=
  if s = "CRITICAL" then 3
  else if s = "HIGH" then 2
  else if s = "MEDIUM" then 1
  else 0

/-! ### Metrics lookup (src/tools/db_tools.py and DatabaseMetricsTool) -/

/-- Row of the three-column SELECT in fetch_task_metrics. -/
structure TaskMetricsRow where
  start_time : String
  end_time : String
  duration : Int
deriving DecidableEq, Repr

/-- fetch_task_metrics (src/tools/db_tools.py): the except branch
returns None exactly like the no-row branch. -/
def fetch_task_metrics (outcome : Except String (Option TaskMetricsRow)) :
    Option TaskMetricsRow :=
  match outcome with
  | Except.error _ => none
  | Except.ok none => none
  | Except.ok (some row) => some row

/-- Row of the eight-column SELECT in DatabaseMetricsTool._run. -/
structure MetricsRecord where
  task_id : String
  start_time : String
  end_time : String
  duration_seconds : Int
  status : String
  cpu_usage : ℚ
  memory_usage : Int
  error_count : Int
deriving DecidableEq, Repr

/-- Rendering of a rational the way the report interpolates a numeric
field (only the shape matters for the claims). -/
def ratStr (q : ℚ) : String :=
  toString q.num ++ "/" ++ toString q.den

/-- DatabaseMetricsTool._run (multi_agent_ops_ai.py). -/
def database_metrics_run (db_exists : Bool) (outcome : Except String (Option MetricsRecord))
    (task_id : String) : String :=
  if !db_exists then "Database not found: data/metrics.db"
  else
    match outcome with
    | Except.error e => "Database query failed: " ++ e
    | Except.ok none => "No metrics found for task " ++ task_id
    | Except.ok (some row) =>
        "Task Metrics for " ++ row.task_id ++
        " Duration: " ++ toString row.duration_seconds ++ " seconds" ++
        " Start: " ++ row.start_time ++ " End: " ++ row.end_time ++
        " Status: " ++ row.status ++
        " CPU Usage: " ++ ratStr row.cpu_usage ++ "%" ++
        " Memory Usage: " ++ toString row.memory_usage ++ "MB" ++
        " Error Count: " ++ toString row.error_count

/-! ### Incident matcher (src/tools/incident_tools.py and
IncidentHistoryTool._run in multi_agent_ops_ai.py) -/

/-- One row of data/incidents.csv. -/
structure Incident where
  date : String
  incident_id : String
  severity : String
  description : String
  resolution : Option String
deriving DecidableEq, Repr

/-- pandas drop_duplicates keeps the first occurrence of each row
value, preserving order. -/
def pdDedupAux [DecidableEq α] (seen : List α) : List α → List α
  | [] => []
  | x :: xs => if x ∈ seen then pdDedupAux seen xs else x :: pdDedupAux (x :: seen) xs

/-- pandas drop_duplicates. -/
def pdDedup [DecidableEq α] (l : List α) : List α :=
  pdDedupAux [] l

/-- Rows whose description contains the needle case-insensitively
(`df.str.contains(needle, case=False, na=False)`). -/
def descMatches (df : List Incident) (needle : String) : List Incident :=
  df.filter (fun r => containsCI r.description needle)

/-- The first five whitespace tokens of the lower-cased summary
(`error_summary.lower().split()[:5]`). -/
def top5Keywords (error_summary : String) : List String :=
  (pySplitWs (pyLower error_summary)).take 5

/-- The keyword loop of IncidentHistoryTool._run: each keyword longer
than three chars contributes its matches, deduplicated as it goes. -/
def contextLoop (df : List Incident) (keywords : List String) : List Incident :=
  keywords.foldl
    (fun acc kw => if 3 < kw.length then pdDedup (acc ++ descMatches df kw) else acc) []

/-- IncidentHistoryTool._run before the display cap: exact matches are
always computed, the keyword pass runs whenever the summary is longer
than ten chars, and both are concatenated then deduplicated. -/
def incidentAllMatches (df : List Incident) (task_id error_summary : String) : List Incident :=
  let exact := descMatches df task_id
  let context :=
    if 10 < error_summary.length then contextLoop df (top5Keywords error_summary) else []
  pdDedup (exact ++ context)

/-- The incidents IncidentHistoryTool._run actually renders
(`all_matches.head(5)`). -/
def incidentTopMatches (df : List Incident) (task_id error_summary : String) : List Incident :=
  (incidentAllMatches df task_id error_summary).take 5

/-- search_similar_incidents (src/tools/incident_tools.py): the
fallback pass matches on the first fifty chars of the summary and runs
only when the exact pass found nothing. -/
def searchSimilarMatches (df : List Incident) (task_id error_summary : String) : List Incident :=
  let matched := descMatches df task_id
  if matched.isEmpty then descMatches df (pyTake 50 error_summary) else matched

/-! ### Code analysis engine (src/tools/code_tools.py) -/

/-- One issue dictionary; the `code` key is absent from the
read-failure issue. -/
structure CodeIssue where
  file : String
  line : Nat
  issue : String
  severity : String
  type : String
  code : Option String
deriving DecidableEq, Repr

/-- The four per-category lists `_check_line_issues` returns. -/
structure IssueLists where
  general : List CodeIssue
  security : List CodeIssue
  performance : List CodeIssue
  code_smells : List CodeIssue
deriving DecidableEq, Repr

def emptyIssueLists : IssueLists := ⟨[], [], [], []⟩

/-- Componentwise `extend` of the four lists. -/
def appendIssueLists (a b : IssueLists) : IssueLists :=
  ⟨a.general ++ b.general, a.security ++ b.security,
   a.performance ++ b.performance, a.code_smells ++ b.code_smells⟩

/-- A double-quote and a single-quote as strings. -/
def dquote : String := String.mk [Char.ofNat 34]

def squote : String := String.mk [Char.ofNat 39]

/-- CodeAnalysisTool._check_line_issues: each heuristic appends at most
one issue to its category, in source order. The argument is the
already-stripped line, as at the call site. -/
def check_line_issues (line : String) (file_path : String) (line_num : Nat) : IssueLists :=
  let lower := pyLower line
  let nullIssue :=
    if (strContains line ".get(" || strContains line ".fetch(" || strContains line ".find(")
        && !strContains lower "null" && !strContains lower "none" then
      [{ file := file_path, line := line_num,
         issue := "Potential null pointer access without null check",
         severity := "HIGH", type := "NullPointerRisk", code := some (pyStrip line) : CodeIssue }]
    else []
  let resourceIssue :=
    if (strContains lower "connection(" || strContains lower "open(" || strContains lower "stream(")
        && !strContains lower "close()" && !strContains lower "with" then
      [{ file := file_path, line := line_num,
         issue := "Potential resource leak - missing close()",
         severity := "MEDIUM", type := "ResourceLeak", code := some (pyStrip line) : CodeIssue }]
    else []
  let sqlIssue :=
    if (strContains lower "sql" || strContains lower "query" || strContains lower "execute")
        && (strContains lower "input" || strContains lower "request" || strContains lower "param") then
      [{ file := file_path, line := line_num,
         issue := "Potential SQL injection vulnerability",
         severity := "CRITICAL", type := "SQLInjection", code := some (pyStrip line) : CodeIssue }]
    else []
  let credIssue :=
    if (strContains lower "password" || strContains lower "apikey" || strContains lower "secret"
        || strContains lower "token")
        && strContains line "=" && (strContains line dquote || strContains line squote) then
      [{ file := file_path, line := line_num,
         issue := "Potential hardcoded credential",
         severity := "HIGH", type := "HardcodedCredential", code := some (pyStrip line) : CodeIssue }]
    else []
  let sleepIssue :=
    if strContains lower "sleep(" || strContains lower "thread.sleep"
        || strContains lower "time.sleep" then
      [{ file := file_path, line := line_num,
         issue := "Synchronous sleep may block execution",
         severity := "MEDIUM", type := "PerformanceBlock", code := some (pyStrip line) : CodeIssue }]
    else []
  let nestedIssue :=
    if pyStartsWith (pyStrip lower) "for " && strContains line "    for " then
      [{ file := file_path, line := line_num,
         issue := "Nested loop detected - potential performance impact",
         severity := "MEDIUM", type := "NestedLoop", code := some (pyStrip line) : CodeIssue }]
    else []
  let longIssue :=
    if 120 < (pyStrip line).length then
      [{ file := file_path, line := line_num,
         issue := "Long line (" ++ toString line.length ++ " characters) - consider refactoring",
         severity := "LOW", type := "LongLine", code := some (pyTake 100 (pyStrip line) ++ "...") : CodeIssue }]
    else []
  let todoIssue :=
    if strContains lower "todo" || strContains lower "fixme" then
      [{ file := file_path, line := line_num,
         issue := "TODO/FIXME comment found",
         severity := "LOW", type := "TodoComment", code := some (pyStrip line) : CodeIssue }]
    else []
  { general := nullIssue ++ resourceIssue,
    security := sqlIssue ++ credIssue,
    performance := sleepIssue ++ nestedIssue,
    code_smells := longIssue ++ todoIssue }

/-- The AST nodes `_analyze_python_file` inspects, in `ast.walk`
order; everything else in the tree is irrelevant to it. -/
inductive PyNode where
  | funcDef (name : String) (numArgs : Nat) (lineno : Nat)
  | exceptHandler (bare : Bool) (lineno : Nat)
deriving DecidableEq, Repr

/-- What `ast.parse` raises on unparseable input. -/
structure PySynErr where
  lineno : Option Nat
  msg : String
  text : String
deriving DecidableEq, Repr

/-- Handling of one walked AST node inside `_analyze_python_file`. -/
def pyNodeStep (file_path : String) (acc : IssueLists) (n : PyNode) : IssueLists :=
  match n with
  | PyNode.funcDef name numArgs lineno =>
    if 7 < numArgs then
      { acc with code_smells := acc.code_smells ++
          [{ file := file_path, line := lineno,
             issue := "Function " ++ name ++ " has " ++ toString numArgs ++
               " parameters (consider refactoring)",
             severity := "MEDIUM", type := "TooManyParameters",
             code := some ("def " ++ name ++ "(...)") }] }
    else acc
  | PyNode.exceptHandler bare lineno =>
    if bare then
      { acc with general := acc.general ++
          [{ file := file_path, line := lineno,
             issue := "Bare except clause - should specify exception type",
             severity := "MEDIUM", type := "BareExcept",
             code := some "except:" }] }
    else acc

/-- CodeAnalysisTool._analyze_python_file, with the outcome of
`ast.parse` passed in. A syntax error is recorded as one
CRITICAL-severity issue. -/
def analyze_python_file (file_path : String) (parse : Except PySynErr (List PyNode)) :
    IssueLists :=
  match parse with
  | Except.ok nodes => nodes.foldl (pyNodeStep file_path) emptyIssueLists
  | Except.error e =>
    { emptyIssueLists with general :=
        [{ file := file_path, line := e.lineno.getD 0,
           issue := "Syntax error: " ++ e.msg,
           severity := "CRITICAL", type := "SyntaxError", code := some e.text }] }

/-- Which language-specific structural pass applies to a file. The
Java pass is not needed by any claim and files outside the two
families take the plain path. -/
inductive SourceKind where
  | python (parse : Except PySynErr (List PyNode))
  | plain
deriving Repr

/-- Per-file analysis result dictionary of `_analyze_file`. -/
structure FileAnalysis where
  issues : List CodeIssue
  security_issues : List CodeIssue
  performance_issues : List CodeIssue
  code_smells : List CodeIssue
  task_related : Bool
deriving DecidableEq, Repr

/-- The cumulative line-by-line issues of one file. -/
def analyzeLines (file_path : String) (lines : List String) : IssueLists :=
  (List.enumFrom 1 lines).foldl
    (fun acc p => appendIssueLists acc (check_line_issues (pyStrip p.2) file_path p.1))
    emptyIssueLists

/-- CodeAnalysisTool._analyze_file. A failed read is downgraded to one
LOW AnalysisError issue. For a Python file, `analysis.update(...)`
replaces the four issue lists with the structural-pass lists wholesale,
keeping only `task_related` from the line pass. -/
def analyze_file (file_path : String) (readResult : Except String String)
    (kind : SourceKind) (task_id : String) : FileAnalysis :=
  match readResult with
  | Except.error msg =>
    { issues := [{ file := file_path, line := 0,
                   issue := "Error analyzing file: " ++ msg,
                   severity := "LOW", type := "AnalysisError", code := none }],
      security_issues := [], performance_issues := [], code_smells := [],
      task_related := false }
  | Except.ok content =>
    let lines := splitLines content
    let taskRel := task_id ≠ "" && containsCI content task_id
    let li := analyzeLines file_path lines
    match kind with
    | SourceKind.python parse =>
      let py := analyze_python_file file_path parse
      { issues := py.general, security_issues := py.security,
        performance_issues := py.performance, code_smells := py.code_smells,
        task_related := taskRel }
    | SourceKind.plain =>
      { issues := li.general, security_issues := li.security,
        performance_issues := li.performance, code_smells := li.code_smells,
        task_related := taskRel }

/-- One file handed to CodeAnalysisTool._run: its path, the outcome of
reading it, and which structural pass applies. -/
structure CodeFile where
  path : String
  readResult : Except String String
  kind : SourceKind
deriving Repr

/-- The accumulated results dictionary of CodeAnalysisTool._run. -/
structure CodeRunResult where
  files_analyzed : Nat
  issues : List CodeIssue
  security_issues : List CodeIssue
  performance_issues : List CodeIssue
  code_smells : List CodeIssue
  task_related_files : List String
deriving DecidableEq, Repr

/-- Accumulation of one file inside CodeAnalysisTool._run. -/
def codeStep (task_id : String) (acc : CodeRunResult) (f : CodeFile) : CodeRunResult :=
  let fa := analyze_file f.path f.readResult f.kind task_id
  { files_analyzed := acc.files_analyzed,
    issues := acc.issues ++ fa.issues,
    security_issues := acc.security_issues ++ fa.security_issues,
    performance_issues := acc.performance_issues ++ fa.performance_issues,
    code_smells := acc.code_smells ++ fa.code_smells,
    task_related_files := acc.task_related_files ++
      (if fa.task_related then [f.path] else []) }

/-- CodeAnalysisTool._run over all discovered files. -/
def code_run (files : List CodeFile) (task_id : String) : CodeRunResult :=
  files.foldl (codeStep task_id)
    { files_analyzed := files.length, issues := [], security_issues := [],
      performance_issues := [], code_smells := [], task_related_files := [] }

/-- `all_issues` of `_generate_code_report`, in its concatenation
order. -/
def allIssues (r : CodeRunResult) : List CodeIssue :=
  r.issues ++ r.security_issues ++ r.performance_issues ++ r.code_smells

/-- One bucket of the report severity histogram. -/
def countSev (l : List CodeIssue) (s : String) : Nat :=
  l.countP (fun i => i.severity == s)

/-- An issue whose severity is one of the four histogram keys. -/
def sevOK (i : CodeIssue) : Bool :=
  i.severity == "CRITICAL" || i.severity == "HIGH" || i.severity == "MEDIUM" || i.severity == "LOW"

/-! ### Analysis utilities (AnalysisUtils, multi_agent_ops_ai.py) -/

/-- AnalysisUtils.calculate_severity. Its only inputs are the raw
metrics; issue severities do not feed it. -/
def calculate_severity (error_count : Int) (duration : Int) (cpu_usage : ℚ) : String :=
  if 5 < error_count ∨ 90 < cpu_usage then "CRITICAL"
  else if 2 < error_count ∨ 70 < cpu_usage ∨ 300 < duration then "HIGH"
  else if 0 < error_count ∨ 50 < cpu_usage then "MEDIUM"
  else "LOW"

/-- The six fixed recommendation strings, in trigger-list order. -/
def recNull : String := "Add null checks and defensive programming practices"

def recTimeoutA : String := "Review and increase timeout configurations"

def recTimeoutB : String := "Implement retry mechanisms with exponential backoff"

def recMemory : String := "Investigate memory leaks and optimize memory usage"

def recDatabaseA : String := "Review database connection pool settings"

def recDatabaseB : String := "Add database performance monitoring"

/-- Every recommendation the scan can emit, in emission order. -/
def allRecommendations : List String :=
  [recNull, recTimeoutA, recTimeoutB, recMemory, recDatabaseA, recDatabaseB]

/-- AnalysisUtils.generate_recommendations, scanning the lower-cased
aggregated analysis text. The timeout and database triggers append two
recommendations each. -/
def generate_recommendations (analysis_text : String) : List String :=
  let t := pyLower analysis_text
  (if strContains t "nullpointer" then [recNull] else []) ++
  (if strContains t "timeout" then [recTimeoutA, recTimeoutB] else []) ++
  (if strContains t "memory" then [recMemory] else []) ++
  (if strContains t "database" then [recDatabaseA, recDatabaseB] else [])

/-- The executive summary shows `recommendations[:3]`
(OpsAnalysisOrchestrator._generate_executive_summary). -/
def topRecommendations (analysis_text : String) : List String :=
  (generate_recommendations analysis_text).take 3

/-! ### Task-identifier extraction (OrchestratorAgent.extract_task_id
and OpsAnalysisOrchestrator.create_analysis_tasks) -/

/-- Match of the regex `TID[-_]?` followed by one or more digits at the
head of the char list, greedily, with the backtracking `re` applies
when the optional separator is not followed by a digit. The match is
case-sensitive: the source passes no IGNORECASE flag. -/
def matchTIDAt (cs : List Char) : Option (List Char) :=
  match cs with
  | a :: b :: d :: c :: rest2 =>
    if a = 'T' ∧ b = 'I' ∧ d = 'D' then
      if c = '-' ∨ c = '_' then
        let ds := rest2.takeWhile Char.isDigit
        if ds.isEmpty then none else some (a :: b :: d :: c :: ds)
      else
        let ds := (c :: rest2).takeWhile Char.isDigit
        if ds.isEmpty then none else some (a :: b :: d :: ds)
    else none
  | _ => none

/-- `re.search`: the leftmost position with a match wins. -/
def searchTID : List Char → Option (List Char)
  | [] => none
  | c :: cs =>
    match matchTIDAt (c :: cs) with
    | some t => some t
    | none => searchTID cs

/-- OrchestratorAgent.extract_task_id: first match of the pattern, or
the sentinel. The same expression appears verbatim in
OpsAnalysisOrchestrator.create_analysis_tasks and in create_tasks. -/
def extract_task_id (query : String) : String :=
  match searchTID query.toList with
  | some t => String.mk t
  | none => "UNKNOWN"

/-- Shape of a full task-identifier token: the literal TID, an optional
single separator, then one or more digits. -/
def isTaskIdChars (l : List Char) : Bool :=
  match l with
  | a :: b :: d :: c :: rest2 =>
    if a = 'T' ∧ b = 'I' ∧ d = 'D' then
      if c = '-' ∨ c = '_' then !rest2.isEmpty && rest2.all Char.isDigit
      else (c :: rest2).all Char.isDigit
    else false
  | _ => false

/-- Every list of an IssueLists value carries one of the four
histogram severities. -/
def AllSevOK (il : IssueLists) : Prop :=
  il.general.all sevOK = true ∧ il.security.all sevOK = true ∧
    il.performance.all sevOK = true ∧ il.code_smells.all sevOK = true

/-- Every list of a FileAnalysis value carries one of the four
histogram severities. -/
def AllFASevOK (fa : FileAnalysis) : Prop :=
  fa.issues.all sevOK = true ∧ fa.security_issues.all sevOK = true ∧
    fa.performance_issues.all sevOK = true ∧ fa.code_smells.all sevOK = true

/-- Concrete log store for the timeline duplication example: one file
whose single line is both task-related and a task-related error line. -/
def dupLogInput : List (String × List String) :=
  [("application.log", ["2024-07-20 10:15:28 ERROR NullPointerException TID-12345"])]

/-- Concrete incident ledger with an exact task match (INC-001) and a
keyword-only match (INC-002). -/
def cexIncidents : List Incident :=
  [⟨"2024-07-15", "INC-001", "HIGH", "Task TID-12345 failed with NullPointerException", some "fixed"⟩,
   ⟨"2024-07-10", "INC-002", "MEDIUM", "Database connection timeout caused failures", none⟩]

/-- A small ledger used to instantiate the incident matcher theorem. -/
def witIncidents : List Incident :=
  [⟨"2024-07-15", "INC-001", "HIGH", "Task TID-9 failed", some "fix"⟩,
   ⟨"2024-07-10", "INC-002", "MEDIUM", "timeout in batch job", none⟩]

/-- The keyword-only incident of the small ledger. -/
def witIncidentB : Incident :=
  ⟨"2024-07-10", "INC-002", "MEDIUM", "timeout in batch job", none⟩

/-- A Python file whose structural pass fails to parse. -/
def malformedFile : CodeFile :=
  ⟨"data_processor.py", Except.ok "def process(:",
   SourceKind.python (Except.error ⟨some 1, "invalid syntax",
     "invalid syntax (data_processor.py, line 1)"⟩)⟩

/-! ## Theorems -/

/-- The lexicographic comparison is total. -/
theorem lexLe_total : ∀ as bs : List Char, lexLe as bs = true ∨ lexLe bs as = true := by
  intro as
  induction as with
  | nil => intro bs; left; rfl
  | cons a as ih =>
    intro bs
    cases bs with
    | nil => right; rfl
    | cons b bs =>
      by_cases hab : a = b
      · subst hab
        simpa only [lexLe, if_pos rfl] using ih bs
      · have hba : ¬ b = a := fun h => hab h.symm
        simp only [lexLe, if_neg hab, if_neg hba]
        rcases Nat.lt_trichotomy a.val.toNat b.val.toNat with h | h | h
        · left; exact decide_eq_true (Char.lt_def.mpr h)
        · exact absurd (Char.ext (UInt32.ext h)) hab
        · right; exact decide_eq_true (Char.lt_def.mpr h)

/-- The lexicographic comparison is transitive. -/
theorem lexLe_trans : ∀ as bs cs : List Char,
    lexLe as bs = true → lexLe bs cs = true → lexLe as cs = true := by
  intro as
  induction as with
  | nil => intro bs cs _ _; rfl
  | cons a as ih =>
    intro bs cs h1 h2
    cases bs with
    | nil => simp [lexLe] at h1
    | cons b bs =>
      cases cs with
      | nil => simp [lexLe] at h2
      | cons c cs =>
        by_cases hab : a = b <;> by_cases hbc : b = c
        · subst hab; subst hbc
          simp only [lexLe, if_pos rfl] at h1 h2 ⊢
          exact ih bs cs h1 h2
        · subst hab
          simp only [lexLe, if_pos rfl, if_neg hbc] at h2 ⊢
          exact h2
        · subst hbc
          simp only [lexLe, if_neg hab] at h1 ⊢
          exact h1
        · simp only [lexLe, if_neg hab, if_neg hbc] at h1 h2
          have hac : a.val.toNat < c.val.toNat :=
            Nat.lt_trans (Char.lt_def.mp (of_decide_eq_true h1))
              (Char.lt_def.mp (of_decide_eq_true h2))
          have hne : ¬ a = c := by
            intro he
            subst he
            exact Nat.lt_irrefl _ hac
          simp only [lexLe, if_neg hne]
          exact decide_eq_true (Char.lt_def.mpr hac)

instance : IsTotal TEntry tsle :=
  ⟨fun a b => lexLe_total (tsKey a) (tsKey b)⟩

instance : IsTrans TEntry tsle :=
  ⟨fun a b c => lexLe_trans (tsKey a) (tsKey b) (tsKey c)⟩

/-- C1 (amended): whenever the log engine returns a result (rather
than an error string), its timeline is sorted ascending by timestamp
under the string order and is a permutation of the entries collected
per file: every task-related line, a second entry for each
task-related error line, and every query-match line, without
deduplication. Being a pure function of its input, rerunning it on
identical input yields the identical sequence. -/
theorem log_run_timeline_sorted_perm (files : List (String × List String))
    (task_id query : String) :
    match log_run files task_id query with
    | Except.error _ => True
    | Except.ok r =>
        List.Sorted tsle r.timeline ∧
          r.timeline.Perm (rawBuckets files task_id query).timeline := by
  cases h : log_run files task_id query with
  | error e => trivial
  | ok r =>
    unfold log_run at h
    by_cases hemp : files.isEmpty
    · simp [hemp] at h
    · simp only [hemp, Bool.false_eq_true, if_false] at h
      by_cases hnone : (2 ≤ (rawBuckets files task_id query).timeline.length &&
          (rawBuckets files task_id query).timeline.any fun e => e.timestamp.isNone) = true
      · rw [if_pos hnone] at h
        cases h
      · rw [if_neg hnone] at h
        cases h
        refine ⟨List.sorted_insertionSort tsle _, List.perm_insertionSort tsle _⟩

/-- C1 counterexample: on a store whose single log line is a
task-related error line, the returned timeline holds two entries with
the same (source, lineNumber) pair, so it is not deduplicated by
(source, lineNumber). -/
theorem log_run_timeline_duplicate_cex :
    (log_run dupLogInput "TID-12345" "").toOption.map
        (fun r => r.timeline.map (fun e => (e.file, e.line_number)))
      = some [("application.log", 1), ("application.log", 1)] := by
  decide

/-- Shape of a separator-form token. -/
theorem isTaskIdChars_sep (c x : Char) (xs : List Char)
    (hsep : c = '-' ∨ c = '_') (hall : (x :: xs).all Char.isDigit = true) :
    isTaskIdChars ('T' :: 'I' :: 'D' :: c :: x :: xs) = true := by
  show (if ('T' : Char) = 'T' ∧ ('I' : Char) = 'I' ∧ ('D' : Char) = 'D' then
          if c = '-' ∨ c = '_' then !(x :: xs).isEmpty && (x :: xs).all Char.isDigit
          else (c :: x :: xs).all Char.isDigit
        else false) = true
  rw [if_pos ⟨rfl, rfl, rfl⟩, if_pos hsep]
  simpa using hall

/-- Shape of a token whose digits follow TID directly. -/
theorem isTaskIdChars_digits (x : Char) (xs : List Char)
    (hne : ¬ (x = '-' ∨ x = '_')) (hall : (x :: xs).all Char.isDigit = true) :
    isTaskIdChars ('T' :: 'I' :: 'D' :: x :: xs) = true := by
  show (if ('T' : Char) = 'T' ∧ ('I' : Char) = 'I' ∧ ('D' : Char) = 'D' then
          if x = '-' ∨ x = '_' then !xs.isEmpty && xs.all Char.isDigit
          else (x :: xs).all Char.isDigit
        else false) = true
  rw [if_pos ⟨rfl, rfl, rfl⟩, if_neg hne]
  exact hall

/-- A successful at-position match produces a well-shaped token that is
a prefix of the text at that position. -/
theorem matchTIDAt_spec (cs t : List Char) (h : matchTIDAt cs = some t) :
    isTaskIdChars t = true ∧ ∃ suf, t ++ suf = cs := by
  unfold matchTIDAt at h
  split at h
  case h_2 => exact absurd h (by simp)
  case h_1 a b d c rest2 =>
    split at h
    case isFalse => exact absurd h (by simp)
    case isTrue htid =>
      obtain ⟨ha, hb, hd⟩ := htid
      subst ha; subst hb; subst hd
      by_cases hsep : c = '-' ∨ c = '_'
      · rw [if_pos hsep] at h
        by_cases hds : (rest2.takeWhile Char.isDigit).isEmpty
        · rw [if_pos hds] at h; cases h
        · rw [if_neg hds] at h
          cases h
          have hmem : ∀ x ∈ rest2.takeWhile Char.isDigit, Char.isDigit x :=
            fun x hx => List.mem_takeWhile_imp hx
          constructor
          · cases hts : rest2.takeWhile Char.isDigit with
            | nil => rw [hts] at hds; exact absurd rfl hds
            | cons x xs =>
              refine isTaskIdChars_sep c x xs hsep ?_
              rw [← hts]
              exact List.all_eq_true.mpr hmem
          · refine ⟨rest2.dropWhile Char.isDigit, ?_⟩
            simp [List.takeWhile_append_dropWhile]
      · rw [if_neg hsep] at h
        by_cases hds : ((c :: rest2).takeWhile Char.isDigit).isEmpty
        · rw [if_pos hds] at h; cases h
        · rw [if_neg hds] at h
          cases h
          have hcd : Char.isDigit c = true := by
            by_cases hc : Char.isDigit c
            · exact hc
            · exact absurd (by simp [List.takeWhile_cons, hc]) hds
          have hts2 : (c :: rest2).takeWhile Char.isDigit =
              c :: rest2.takeWhile Char.isDigit := by
            simp [List.takeWhile_cons, hcd]
          have hmem : ∀ x ∈ (c :: rest2).takeWhile Char.isDigit, Char.isDigit x :=
            fun x hx => List.mem_takeWhile_imp hx
          constructor
          · show isTaskIdChars ('T' :: 'I' :: 'D' :: (c :: rest2).takeWhile Char.isDigit) = true
            rw [hts2]
            refine isTaskIdChars_digits c (rest2.takeWhile Char.isDigit) hsep ?_
            rw [← hts2]
            exact List.all_eq_true.mpr hmem
          · refine ⟨(c :: rest2).dropWhile Char.isDigit, ?_⟩
            simp [List.takeWhile_append_dropWhile]

/-- A successful search produces a well-shaped token occurring inside
the text. -/
theorem searchTID_spec (cs t : List Char) (h : searchTID cs = some t) :
    isTaskIdChars t = true ∧ ∃ pre suf, pre ++ (t ++ suf) = cs := by
  induction cs with
  | nil => cases h
  | cons c cs ih =>
    unfold searchTID at h
    cases hm : matchTIDAt (c :: cs) with
    | some u =>
      rw [hm] at h
      cases h
      obtain ⟨hshape, suf, hsuf⟩ := matchTIDAt_spec (c :: cs) t hm
      exact ⟨hshape, [], suf, hsuf⟩
    | none =>
      rw [hm] at h
      obtain ⟨hshape, pre, suf, hsuf⟩ := ih h
      exact ⟨hshape, c :: pre, suf, by simp [hsuf]⟩

/-- C2 (amended): extraction is case-sensitive. For every query it
either returns the sentinel UNKNOWN or a token occurring in the query
of the exact shape TID, optional single separator, one or more digits;
the upper-case scenario query extracts its identifier. -/
theorem extract_task_id_case_sensitive_spec (q : String) :
    (extract_task_id q = "UNKNOWN" ∨
      (isTaskIdChars (extract_task_id q).toList = true ∧
        ∃ pre suf, pre ++ ((extract_task_id q).toList ++ suf) = q.toList)) ∧
    extract_task_id "Why is task TID-12345 failing?" = "TID-12345" := by
  constructor
  · unfold extract_task_id
    cases h : searchTID q.toList with
    | none => left; rfl
    | some t =>
      right
      exact searchTID_spec q.toList t h
  · decide

/-- C2 counterexample: a query holding only the lower-case form
tid-12345 yields the sentinel, not the identifier, because the source
compiles the pattern without IGNORECASE. -/
theorem extract_task_id_lowercase_cex :
    extract_task_id "tid-12345" = "UNKNOWN" ∧ extract_task_id "tid-12345" ≠ "tid-12345" := by
  decide

/-- C4 (amended): a CPU reading above 90 forces calculate_severity to
CRITICAL whatever the error count and duration are, but the ticket
priority field JiraTicketTool renders is the fixed literal HIGH, so the
ticket does not reflect the derived value. Issue severities are not
inputs of the rule at all. -/
theorem severity_cpu_critical_ticket_priority (error_count duration : Int) (cpu_usage : ℚ)
    (h : 90 < cpu_usage) :
    calculate_severity error_count duration cpu_usage = "CRITICAL" ∧
    ∀ today task_id summary details,
      (jira_create_ticket today task_id summary details).priority = "HIGH" := by
  refine ⟨?_, fun _ _ _ _ => rfl⟩
  unfold calculate_severity
  rw [if_pos (Or.inr h)]

theorem severity_cpu_critical_ticket_priority_witness :
    calculate_severity 3 6 95 = "CRITICAL" ∧
    ∀ today task_id summary details,
      (jira_create_ticket today task_id summary details).priority = "HIGH" :=
  severity_cpu_critical_ticket_priority 3 6 95 (by norm_num)

/-- C4 counterexample: with cpuUsagePct 95 the derived severity is
CRITICAL, yet the priority field of the created ticket is HIGH, a
different value, so the ticket priority does not reflect the derived
severity. -/
theorem ticket_priority_hardcoded_cex :
    calculate_severity 0 0 95 = "CRITICAL" ∧
    (jira_create_ticket "20240720" "TID-12348" "cpu saturation" "details").priority = "HIGH" ∧
    ("HIGH" : String) ≠ "CRITICAL" := by
  refine ⟨by decide, rfl, by decide⟩

/-- C5 (confirmed): parsing the scenario log line for TID-12345 with
the scenario query yields exactly one error entry, classified
NullPointerException with severity HIGH, and the overall ticket
priority is at least HIGH in the severity order. -/
theorem nullpointer_scenario_confirmed :
    (parse_log_file "application.log" "TID-12345" "Why is task TID-12345 failing?"
        ["ERROR TaskProcessor NullPointerException TID-12345"]).errors.map
        (fun e => (e.error_type, e.severity))
      = [(some "NullPointerException", some "HIGH")] ∧
    sevRank "HIGH" ≤
      sevRank (jira_create_ticket "20240720" "TID-12345" "summary" "details").priority := by
  refine ⟨by decide, by decide⟩

/-- C6 (amended): fetch_task_metrics collapses a store failure and a
missing record into the same value None, while DatabaseMetricsTool
does return distinct strings for the two outcomes. -/
theorem metrics_lookup_outcomes (e tid msg : String) :
    fetch_task_metrics (Except.error e) = fetch_task_metrics (Except.ok none) ∧
    database_metrics_run true (Except.ok none) tid ≠
      database_metrics_run true (Except.error msg) tid := by
  refine ⟨rfl, ?_⟩
  intro hcontra
  have h2 : ("No metrics found for task " ++ tid) = ("Database query failed: " ++ msg) :=
    hcontra
  have h3 : ("No metrics found for task " ++ tid).toList.head? =
      ("Database query failed: " ++ msg).toList.head? :=
    congrArg (fun s : String => s.toList.head?) h2
  have hN : ("No metrics found for task " ++ tid).toList.head? = some 'N' := rfl
  have hD : ("Database query failed: " ++ msg).toList.head? = some 'D' := rfl
  rw [hN, hD] at h3
  cases h3

/-- C6 counterexample: a store failure produces exactly the same value
as the not-found case in fetch_task_metrics, so no distinct
lookup-failed error kind exists there. -/
theorem fetch_task_metrics_collapse_cex :
    fetch_task_metrics (Except.error "database is locked") = none ∧
    fetch_task_metrics (Except.ok none) = none :=
  ⟨rfl, rfl⟩

/-- Either branch of a conditional singleton list is a sublist of the
unconditional list. -/
theorem if_list_sublist (c : Prop) [Decidable c] (l : List String) :
    (if c then l else []).Sublist l := by
  split
  · exact List.Sublist.refl l
  · exact List.nil_sublist l

/-- C8 (amended): the recommendation list is always a sublist of the
six fixed recommendations in trigger order, the timeout trigger
contributes two recommendations whenever present, and the executive
summary shows at most the first three. -/
theorem recommendations_structure (s : String) :
    (generate_recommendations s).Sublist allRecommendations ∧
    (strContains (pyLower s) "timeout" = true →
      recTimeoutA ∈ generate_recommendations s ∧ recTimeoutB ∈ generate_recommendations s) ∧
    (topRecommendations s).length ≤ 3 := by
  refine ⟨?_, ?_, ?_⟩
  · show (generate_recommendations s).Sublist
      ([recNull] ++ [recTimeoutA, recTimeoutB] ++ [recMemory] ++ [recDatabaseA, recDatabaseB])
    unfold generate_recommendations
    exact ((((if_list_sublist _ _).append (if_list_sublist _ _)).append
      (if_list_sublist _ _)).append (if_list_sublist _ _))
  · intro h
    constructor <;> simp [generate_recommendations, h]
  · simp only [topRecommendations, List.length_take]
    omega

theorem recommendations_structure_witness :
    (generate_recommendations "connection timeout").Sublist allRecommendations ∧
    (recTimeoutA ∈ generate_recommendations "connection timeout" ∧
      recTimeoutB ∈ generate_recommendations "connection timeout") ∧
    (topRecommendations "connection timeout").length ≤ 3 :=
  ⟨(recommendations_structure "connection timeout").1,
   (recommendations_structure "connection timeout").2.1 (by decide),
   (recommendations_structure "connection timeout").2.2⟩

/-- C8 counterexample: the text contains the timeout trigger and none
of the other three, yet two recommendations are generated, so a present
trigger can yield more than one recommendation. -/
theorem timeout_two_recommendations_cex :
    strContains (pyLower "connection timeout occurred") "timeout" = true ∧
    strContains (pyLower "connection timeout occurred") "nullpointer" = false ∧
    strContains (pyLower "connection timeout occurred") "memory" = false ∧
    strContains (pyLower "connection timeout occurred") "database" = false ∧
    (generate_recommendations "connection timeout occurred").length = 2 := by
  decide

/-- Membership in the deduplication pass. -/
theorem mem_pdDedupAux [DecidableEq α] (seen l : List α) (x : α) :
    x ∈ pdDedupAux seen l ↔ x ∈ l ∧ x ∉ seen := by
  induction l generalizing seen with
  | nil => simp [pdDedupAux]
  | cons a l ih =>
    unfold pdDedupAux
    by_cases ha : a ∈ seen
    · rw [if_pos ha, ih seen]
      constructor
      · rintro ⟨hx, hns⟩
        exact ⟨List.mem_cons_of_mem a hx, hns⟩
      · rintro ⟨hx, hns⟩
        rcases List.mem_cons.mp hx with rfl | hx2
        · exact absurd ha hns
        · exact ⟨hx2, hns⟩
    · rw [if_neg ha]
      constructor
      · intro hmem
        rcases List.mem_cons.mp hmem with rfl | hx2
        · exact ⟨List.mem_cons_self x l, ha⟩
        · obtain ⟨hx, hns⟩ := (ih (a :: seen)).mp hx2
          exact ⟨List.mem_cons_of_mem a hx, fun hs => hns (List.mem_cons_of_mem a hs)⟩
      · rintro ⟨hx, hns⟩
        by_cases hxa : x = a
        · subst hxa
          exact List.mem_cons_self x _
        · rcases List.mem_cons.mp hx with rfl | hx2
          · exact absurd rfl hxa
          · refine List.mem_cons_of_mem a ((ih (a :: seen)).mpr ⟨hx2, ?_⟩)
            intro hs
            rcases List.mem_cons.mp hs with h | h
            · exact hxa h
            · exact hns h

/-- pandas drop_duplicates keeps exactly the members of its input. -/
theorem mem_pdDedup [DecidableEq α] (l : List α) (x : α) :
    x ∈ pdDedup l ↔ x ∈ l := by
  simp [pdDedup, mem_pdDedupAux]

/-- Membership after the keyword loop, for an arbitrary running
accumulator. -/
theorem mem_contextLoop_aux (df : List Incident) (kws : List String) (acc : List Incident)
    (inc : Incident) :
    (inc ∈ kws.foldl
        (fun acc kw => if 3 < kw.length then pdDedup (acc ++ descMatches df kw) else acc) acc) ↔
      inc ∈ acc ∨ ∃ kw ∈ kws, 3 < kw.length ∧ inc ∈ descMatches df kw := by
  induction kws generalizing acc with
  | nil => simp
  | cons kw kws ih =>
    simp only [List.foldl_cons]
    by_cases hk : 3 < kw.length
    · rw [if_pos hk, ih]
      simp only [mem_pdDedup, List.mem_append]
      constructor
      · rintro ((h | h) | ⟨k, hkmem, hklen, hkm⟩)
        · exact Or.inl h
        · exact Or.inr ⟨kw, List.mem_cons_self kw kws, hk, h⟩
        · exact Or.inr ⟨k, List.mem_cons_of_mem kw hkmem, hklen, hkm⟩
      · rintro (h | ⟨k, hkmem, hklen, hkm⟩)
        · exact Or.inl (Or.inl h)
        · rcases List.mem_cons.mp hkmem with rfl | hkmem
          · exact Or.inl (Or.inr hkm)
          · exact Or.inr ⟨k, hkmem, hklen, hkm⟩
    · rw [if_neg hk, ih]
      constructor
      · rintro (h | ⟨k, hkmem, hklen, hkm⟩)
        · exact Or.inl h
        · exact Or.inr ⟨k, List.mem_cons_of_mem kw hkmem, hklen, hkm⟩
      · rintro (h | ⟨k, hkmem, hklen, hkm⟩)
        · exact Or.inl h
        · rcases List.mem_cons.mp hkmem with rfl | hkmem
          · exact absurd hklen hk
          · exact Or.inr ⟨k, hkmem, hklen, hkm⟩

/-- Membership in the keyword pass. -/
theorem mem_contextLoop (df : List Incident) (kws : List String) (inc : Incident) :
    inc ∈ contextLoop df kws ↔ ∃ kw ∈ kws, 3 < kw.length ∧ inc ∈ descMatches df kw := by
  unfold contextLoop
  rw [mem_contextLoop_aux]
  simp

/-- C3 (amended): in search_similar_incidents the fallback pass runs
only when the exact pass is empty, but in IncidentHistoryTool the
keyword pass runs whenever the summary is longer than ten chars, so its
pre-cap result is exactly the union of the exact matches and the
keyword matches, even when exact matches exist. -/
theorem incident_match_passes_spec (df : List Incident) (task_id s : String) (inc : Incident) :
    (descMatches df task_id ≠ [] →
      searchSimilarMatches df task_id s = descMatches df task_id) ∧
    (10 < s.length →
      (inc ∈ incidentAllMatches df task_id s ↔
        inc ∈ descMatches df task_id ∨ inc ∈ contextLoop df (top5Keywords s))) := by
  constructor
  · intro hne
    simp only [searchSimilarMatches]
    rw [if_neg (by simpa using hne)]
  · intro hlen
    simp only [incidentAllMatches]
    rw [if_pos hlen, mem_pdDedup]
    simp [List.mem_append]

theorem incident_match_passes_spec_witness :
    searchSimilarMatches witIncidents "TID-9" "connection timeout happened" =
      descMatches witIncidents "TID-9" ∧
    (witIncidentB ∈ incidentAllMatches witIncidents "TID-9" "connection timeout happened" ↔
      witIncidentB ∈ descMatches witIncidents "TID-9" ∨
        witIncidentB ∈ contextLoop witIncidents
          (top5Keywords "connection timeout happened")) :=
  ⟨(incident_match_passes_spec witIncidents "TID-9" "connection timeout happened"
      witIncidentB).1 (by decide),
   (incident_match_passes_spec witIncidents "TID-9" "connection timeout happened"
      witIncidentB).2 (by decide)⟩

/-- C3 counterexample: the ledger has an exact TID-12345 match
(INC-001) and a keyword-only match (INC-002); both are returned, so the
result is not only the exact match and the keyword pass ran despite
pass (a) being non-empty. -/
theorem incident_keyword_pass_unconditional_cex :
    (incidentTopMatches cexIncidents "TID-12345" "connection timeout while processing").map
        (fun i => i.incident_id) = ["INC-001", "INC-002"] ∧
    containsCI "Database connection timeout caused failures" "TID-12345" = false := by
  decide

/-- The issue lists of a code run decompose file by file: each file
contributes exactly the lists of its standalone analysis, in input
order, whatever the other files are. -/
theorem foldl_codeStep_fields (files : List CodeFile) (task_id : String) (acc : CodeRunResult) :
    (files.foldl (codeStep task_id) acc).issues =
        acc.issues ++
          (files.map (fun f => (analyze_file f.path f.readResult f.kind task_id).issues)).flatten ∧
    (files.foldl (codeStep task_id) acc).security_issues =
        acc.security_issues ++
          (files.map
            (fun f => (analyze_file f.path f.readResult f.kind task_id).security_issues)).flatten ∧
    (files.foldl (codeStep task_id) acc).performance_issues =
        acc.performance_issues ++
          (files.map
            (fun f => (analyze_file f.path f.readResult f.kind task_id).performance_issues)).flatten ∧
    (files.foldl (codeStep task_id) acc).code_smells =
        acc.code_smells ++
          (files.map (fun f => (analyze_file f.path f.readResult f.kind task_id).code_smells)).flatten := by
  induction files generalizing acc with
  | nil => simp
  | cons f fs ih =>
    obtain ⟨h1, h2, h3, h4⟩ := ih (codeStep task_id acc f)
    refine ⟨?_, ?_, ?_, ?_⟩
    · simp only [List.foldl_cons, List.map_cons, List.flatten_cons]
      rw [h1]
      simp [codeStep, List.append_assoc]
    · simp only [List.foldl_cons, List.map_cons, List.flatten_cons]
      rw [h2]
      simp [codeStep, List.append_assoc]
    · simp only [List.foldl_cons, List.map_cons, List.flatten_cons]
      rw [h3]
      simp [codeStep, List.append_assoc]
    · simp only [List.foldl_cons, List.map_cons, List.flatten_cons]
      rw [h4]
      simp [codeStep, List.append_assoc]

/-- C7 (amended): the code engine never aborts on one malformed file.
The run result is the concatenation of every file's standalone
analysis, so the other files' results are unchanged, and a Python file
whose parse fails contributes exactly one recorded issue, of CRITICAL
severity and type SyntaxError, whatever its content is. -/
theorem code_run_isolated_failure (files : List CodeFile) (task_id path content : String)
    (e : PySynErr) :
    ((code_run files task_id).issues =
        (files.map (fun f => (analyze_file f.path f.readResult f.kind task_id).issues)).flatten ∧
      (code_run files task_id).security_issues =
        (files.map
          (fun f => (analyze_file f.path f.readResult f.kind task_id).security_issues)).flatten ∧
      (code_run files task_id).performance_issues =
        (files.map
          (fun f => (analyze_file f.path f.readResult f.kind task_id).performance_issues)).flatten ∧
      (code_run files task_id).code_smells =
        (files.map (fun f => (analyze_file f.path f.readResult f.kind task_id).code_smells)).flatten) ∧
    ((analyze_file path (Except.ok content) (SourceKind.python (Except.error e)) task_id).issues =
        [{ file := path, line := e.lineno.getD 0, issue := "Syntax error: " ++ e.msg,
           severity := "CRITICAL", type := "SyntaxError", code := some e.text }] ∧
      (analyze_file path (Except.ok content)
          (SourceKind.python (Except.error e)) task_id).security_issues = [] ∧
      (analyze_file path (Except.ok content)
          (SourceKind.python (Except.error e)) task_id).performance_issues = [] ∧
      (analyze_file path (Except.ok content)
          (SourceKind.python (Except.error e)) task_id).code_smells = []) := by
  constructor
  · have h := foldl_codeStep_fields files task_id
      { files_analyzed := files.length, issues := [], security_issues := [],
        performance_issues := [], code_smells := [], task_related_files := [] }
    unfold code_run
    simpa using h
  · exact ⟨rfl, rfl, rfl, rfl⟩

/-- C7 counterexample: the malformed Python file contributes exactly
one issue and its severity is CRITICAL, not LOW. -/
theorem syntax_error_severity_cex :
    (allIssues (code_run [malformedFile] "TID-12345")).map (fun i => i.severity)
        = ["CRITICAL"] ∧
    ("CRITICAL" : String) ≠ "LOW" := by
  decide

/-- Bumping one bucket increases the histogram total by one. -/
theorem histTotal_bumpCount (k : String) (acc : List (String × Nat)) :
    histTotal (bumpCount k acc) = histTotal acc + 1 := by
  induction acc with
  | nil => rfl
  | cons p rest ih =>
    unfold bumpCount
    by_cases hk : k = p.1
    · rw [if_pos hk]
      simp [histTotal]
      omega
    · rw [if_neg hk]
      simp only [histTotal, List.map_cons, List.sum_cons] at ih ⊢
      omega

/-- Folding entries into the histogram adds one per entry. -/
theorem histTotal_foldl (entries : List TEntry) (acc : List (String × Nat)) :
    histTotal (entries.foldl (fun acc e => bumpCount (e.severity.getD "UNKNOWN") acc) acc) =
      histTotal acc + entries.length := by
  induction entries generalizing acc with
  | nil => simp
  | cons e rest ih =>
    simp only [List.foldl_cons, List.length_cons, ih, histTotal_bumpCount]
    omega

/-- A conditional singleton whose element satisfies the predicate. -/
theorem all_if_singleton (c : Prop) [Decidable c] (i : CodeIssue) (p : CodeIssue → Bool)
    (h : p i = true) : (if c then [i] else []).all p = true := by
  split <;> simp [h]

/-- Appending two lists of in-range issues stays in range. -/
theorem all_sevOK_append (l1 l2 : List CodeIssue) (h1 : l1.all sevOK = true)
    (h2 : l2.all sevOK = true) : (l1 ++ l2).all sevOK = true := by
  rw [List.all_append, h1, h2]
  rfl

/-- Every line-check issue carries one of the four severities. -/
theorem check_line_sevOK (line fp : String) (n : Nat) :
    AllSevOK (check_line_issues line fp n) := by
  simp only [check_line_issues, AllSevOK]
  refine ⟨?_, ?_, ?_, ?_⟩ <;>
    exact all_sevOK_append _ _ (all_if_singleton _ _ _ rfl) (all_if_singleton _ _ _ rfl)

/-- Appending issue lists preserves the severity invariant. -/
theorem AllSevOK_append (a b : IssueLists) (ha : AllSevOK a) (hb : AllSevOK b) :
    AllSevOK (appendIssueLists a b) :=
  ⟨all_sevOK_append _ _ ha.1 hb.1, all_sevOK_append _ _ ha.2.1 hb.2.1,
   all_sevOK_append _ _ ha.2.2.1 hb.2.2.1, all_sevOK_append _ _ ha.2.2.2 hb.2.2.2⟩

/-- The AST walk preserves the severity invariant. -/
theorem pyNodeStep_sevOK (fp : String) (nodes : List PyNode) (acc : IssueLists)
    (hacc : AllSevOK acc) :
    AllSevOK (nodes.foldl (pyNodeStep fp) acc) := by
  induction nodes generalizing acc with
  | nil => exact hacc
  | cons n rest ih =>
    refine ih (pyNodeStep fp acc n) ?_
    cases n with
    | funcDef name numArgs lineno =>
      simp only [pyNodeStep]
      by_cases h7 : 7 < numArgs
      · rw [if_pos h7]
        exact ⟨hacc.1, hacc.2.1, hacc.2.2.1, all_sevOK_append _ _ hacc.2.2.2 rfl⟩
      · rw [if_neg h7]
        exact hacc
    | exceptHandler bare lineno =>
      simp only [pyNodeStep]
      by_cases hb : bare = true
      · rw [if_pos hb]
        exact ⟨all_sevOK_append _ _ hacc.1 rfl, hacc.2.1, hacc.2.2.1, hacc.2.2.2⟩
      · rw [if_neg hb]
        exact hacc

/-- The Python structural pass only produces the four severities. -/
theorem analyze_python_sevOK (fp : String) (parse : Except PySynErr (List PyNode)) :
    AllSevOK (analyze_python_file fp parse) := by
  cases parse with
  | ok nodes => exact pyNodeStep_sevOK fp nodes emptyIssueLists ⟨rfl, rfl, rfl, rfl⟩
  | error e => exact ⟨rfl, rfl, rfl, rfl⟩

/-- The line fold preserves the severity invariant from any
accumulator. -/
theorem analyzeLines_sevOK_aux (fp : String) (ps : List (Nat × String)) (acc : IssueLists)
    (hacc : AllSevOK acc) :
    AllSevOK (ps.foldl
      (fun acc p => appendIssueLists acc (check_line_issues (pyStrip p.2) fp p.1)) acc) := by
  induction ps generalizing acc with
  | nil => exact hacc
  | cons p rest ih =>
    exact ih _ (AllSevOK_append _ _ hacc (check_line_sevOK _ _ _))

/-- The cumulative line pass only produces the four severities. -/
theorem analyzeLines_sevOK (fp : String) (lines : List String) :
    AllSevOK (analyzeLines fp lines) :=
  analyzeLines_sevOK_aux fp (List.enumFrom 1 lines) emptyIssueLists ⟨rfl, rfl, rfl, rfl⟩

/-- Every issue a single-file analysis records carries one of the four
severities. -/
theorem analyze_file_sevOK (fp : String) (readResult : Except String String)
    (kind : SourceKind) (task_id : String) :
    AllFASevOK (analyze_file fp readResult kind task_id) := by
  cases readResult with
  | error msg => exact ⟨rfl, rfl, rfl, rfl⟩
  | ok content =>
    cases kind with
    | python parse =>
      have h := analyze_python_sevOK fp parse
      exact ⟨h.1, h.2.1, h.2.2.1, h.2.2.2⟩
    | plain =>
      have h := analyzeLines_sevOK fp (splitLines content)
      exact ⟨h.1, h.2.1, h.2.2.1, h.2.2.2⟩

/-- Every issue of a whole code run carries one of the four
severities. -/
theorem code_run_sevOK (files : List CodeFile) (task_id : String) :
    ∀ i ∈ allIssues (code_run files task_id), sevOK i = true := by
  intro i hi
  obtain ⟨h1, h2, h3, h4⟩ := foldl_codeStep_fields files task_id
    { files_analyzed := files.length, issues := [], security_issues := [],
      performance_issues := [], code_smells := [], task_related_files := [] }
  unfold allIssues code_run at hi
  rw [h1, h2, h3, h4] at hi
  simp only [List.nil_append] at hi
  simp only [List.mem_append, List.mem_flatten, List.mem_map] at hi
  have key : ∀ f : CodeFile, f ∈ files →
      ∀ j ∈ (analyze_file f.path f.readResult f.kind task_id).issues ++
        (analyze_file f.path f.readResult f.kind task_id).security_issues ++
        (analyze_file f.path f.readResult f.kind task_id).performance_issues ++
        (analyze_file f.path f.readResult f.kind task_id).code_smells, sevOK j = true := by
    intro f _ j hj
    obtain ⟨k1, k2, k3, k4⟩ := analyze_file_sevOK f.path f.readResult f.kind task_id
    rw [List.all_eq_true] at k1 k2 k3 k4
    simp only [List.mem_append] at hj
    rcases hj with ((hj | hj) | hj) | hj
    · exact k1 j hj
    · exact k2 j hj
    · exact k3 j hj
    · exact k4 j hj
  rcases hi with ((⟨l, ⟨f, hf, hl⟩, hil⟩ | ⟨l, ⟨f, hf, hl⟩, hil⟩) |
      ⟨l, ⟨f, hf, hl⟩, hil⟩) | ⟨l, ⟨f, hf, hl⟩, hil⟩
  · exact key f hf i (by subst hl; simp [List.mem_append]; tauto)
  · exact key f hf i (by subst hl; simp [List.mem_append]; tauto)
  · exact key f hf i (by subst hl; simp [List.mem_append]; tauto)
  · exact key f hf i (by subst hl; simp [List.mem_append]; tauto)

/-- A list of issues whose severities all lie in the four buckets has
bucket counts summing to its length. -/
theorem count_four (l : List CodeIssue) (h : l.all sevOK = true) :
    countSev l "CRITICAL" + countSev l "HIGH" + countSev l "MEDIUM" + countSev l "LOW"
      = l.length := by
  induction l with
  | nil => rfl
  | cons i l ih =>
    simp only [List.all_cons, Bool.and_eq_true] at h
    obtain ⟨hi, hl⟩ := h
    have ih' := ih hl
    simp only [sevOK, Bool.or_eq_true, beq_iff_eq] at hi
    rcases hi with ((h | h) | h) | h
    all_goals simp only [countSev, List.countP_cons, List.length_cons]
    all_goals simp only [countSev] at ih'
    all_goals simp +decide [h]
    all_goals omega

/-- C9 (confirmed): in both analysis stages the severity histogram
counts sum to the number of recorded items: the log histogram total is
the error-entry count, and the four code-report buckets sum to the
total issue count, for every input. -/
theorem severity_histogram_sums (entries : List TEntry) (files : List CodeFile)
    (task_id : String) :
    histTotal (analyze_severity entries) = entries.length ∧
    countSev (allIssues (code_run files task_id)) "CRITICAL" +
        countSev (allIssues (code_run files task_id)) "HIGH" +
        countSev (allIssues (code_run files task_id)) "MEDIUM" +
        countSev (allIssues (code_run files task_id)) "LOW"
      = (allIssues (code_run files task_id)).length := by
  constructor
  · unfold analyze_severity
    rw [histTotal_foldl]
    simp [histTotal]
  · exact count_four _ (List.all_eq_true.mpr (code_run_sevOK files task_id))

/-- Rank contributed by the error count alone. -/
def ecRank (ec : Int) : Nat :=
  if 5 < ec then 3 else if 2 < ec then 2 else if 0 < ec then 1 else 0

/-- Rank contributed by the duration alone. -/
def durRank (d : Int) : Nat :=
  if 300 < d then 2 else 0

/-- Rank contributed by the CPU percentage alone. -/
def cpuRank (c : ℚ) : Nat :=
  if 90 < c then 3 else if 70 < c then 2 else if 50 < c then 1 else 0

theorem sevRank_CRITICAL : sevRank "CRITICAL" = 3 := rfl

theorem sevRank_HIGH : sevRank "HIGH" = 2 := rfl

theorem sevRank_MEDIUM : sevRank "MEDIUM" = 1 := rfl

theorem sevRank_LOW : sevRank "LOW" = 0 := rfl

/-- The classifier computes the maximum of the three per-metric
ranks. -/
theorem sevRank_calculate (ec d : Int) (c : ℚ) :
    sevRank (calculate_severity ec d c) = max (max (ecRank ec) (durRank d)) (cpuRank c) := by
  unfold calculate_severity ecRank durRank cpuRank
  split_ifs <;>
    simp only [sevRank_CRITICAL, sevRank_HIGH, sevRank_MEDIUM, sevRank_LOW] <;>
    first | omega | tauto

theorem ecRank_mono {a b : Int} (h : a ≤ b) : ecRank a ≤ ecRank b := by
  unfold ecRank
  split_ifs <;> omega

theorem durRank_mono {a b : Int} (h : a ≤ b) : durRank a ≤ durRank b := by
  unfold durRank
  split_ifs <;> omega

theorem cpuRank_mono {a b : ℚ} (h : a ≤ b) : cpuRank a ≤ cpuRank b := by
  unfold cpuRank
  split_ifs <;> first | omega | linarith

/-- C10 (confirmed): calculate_severity always returns one of the four
labels, and raising any one of error count, duration or CPU usage with
the other two fixed never lowers the returned label in the order
CRITICAL > HIGH > MEDIUM > LOW. -/
theorem calculate_severity_total_monotone :
    (∀ (ec d : Int) (c : ℚ),
      calculate_severity ec d c = "CRITICAL" ∨ calculate_severity ec d c = "HIGH" ∨
        calculate_severity ec d c = "MEDIUM" ∨ calculate_severity ec d c = "LOW") ∧
    (∀ (ec ec' d : Int) (c : ℚ), ec ≤ ec' →
      sevRank (calculate_severity ec d c) ≤ sevRank (calculate_severity ec' d c)) ∧
    (∀ (ec d d' : Int) (c : ℚ), d ≤ d' →
      sevRank (calculate_severity ec d c) ≤ sevRank (calculate_severity ec d' c)) ∧
    (∀ (ec d : Int) (c c' : ℚ), c ≤ c' →
      sevRank (calculate_severity ec d c) ≤ sevRank (calculate_severity ec d c')) := by
  refine ⟨?_, ?_, ?_, ?_⟩
  · intro ec d c
    unfold calculate_severity
    split_ifs <;> tauto
  · intro ec ec' d c h
    rw [sevRank_calculate, sevRank_calculate]
    exact max_le_max (max_le_max (ecRank_mono h) le_rfl) le_rfl
  · intro ec d d' c h
    rw [sevRank_calculate, sevRank_calculate]
    exact max_le_max (max_le_max le_rfl (durRank_mono h)) le_rfl
  · intro ec d c c' h
    rw [sevRank_calculate, sevRank_calculate]
    exact max_le_max le_rfl (cpuRank_mono h)

theorem calculate_severity_total_monotone_witness :
    (calculate_severity 1 10 40 = "CRITICAL" ∨ calculate_severity 1 10 40 = "HIGH" ∨
      calculate_severity 1 10 40 = "MEDIUM" ∨ calculate_severity 1 10 40 = "LOW") ∧
    sevRank (calculate_severity 1 10 40) ≤ sevRank (calculate_severity 7 10 40) ∧
    sevRank (calculate_severity 1 10 40) ≤ sevRank (calculate_severity 1 400 40) ∧
    sevRank (calculate_severity 1 10 40) ≤ sevRank (calculate_severity 1 10 95) :=
  ⟨calculate_severity_total_monotone.1 1 10 40,
   calculate_severity_total_monotone.2.1 1 7 10 40 (by norm_num),
   calculate_severity_total_monotone.2.2.1 1 10 400 40 (by norm_num),
   calculate_severity_total_monotone.2.2.2 1 10 40 95 (by norm_num)⟩

end OpsAI
